import Mathlib

/-!
Verification of the plugin execution sandbox in `src/lib/plugin-system.ts`.

The development shallowly embeds the sandbox's observable semantics:

* `JsValue` models the dynamically typed values plugin code produces,
  including callable bindings whose behaviour when invoked is recorded in
  the constructor (throwing, returning synchronously after a given number
  of milliseconds of blocking computation, or returning a promise that
  settles after a given delay).
* `EvalOutcome` is the denotation of evaluating a plugin source text inside
  the `new Function` wrapper: either the top-level code throws, or it
  completes leaving a scope of named bindings.
* `runWrapper` models `executePluginCalculation` / `executePluginRender`
  (lines 85-194): the entry-point check, the `Promise.race` against the
  500 ms timer, and the `catch` clause.  The race is modelled faithfully to
  the single-threaded event loop: the wrapped call is evaluated
  synchronously *before* the timeout timer is registered, so a synchronous
  computation always completes and its value wins the race, however long it
  blocks; only a returned promise can lose to the timer.
* `validatePluginCode` models the static validator (lines 199-236) over
  actual strings, with the denylist regexes compiled to a small
  word/whitespace pattern language.
* `processPlugins` models the orchestrator loop (lines 241-288) and
  `mergePluginResults` the merger (lines 293-311).
-/

namespace PluginSystem

/-! ## Dynamic values -/

/-- How a thrown JS value looks to the `catch (error)` clause, which reads
`error.message`. -/
inductive Thrown where
  /-- an object carrying a string `message` property (e.g. an `Error`) -/
  | errObj (msg : String)
  /-- `null` or `undefined`: reading `.message` on it throws a `TypeError` -/
  | nullish
  /-- any other value (string, number, object without `message`): reading
  `.message` yields `undefined` -/
  | other
deriving DecidableEq

/-- Dynamically-typed JS values.  Callable values carry their behaviour when
invoked: throw, return a value after `durMs` milliseconds of synchronous
(blocking) computation, or immediately return a promise that settles with a
value after `delayMs` milliseconds. -/
inductive JsValue where
  | undefined
  | nullv
  | bool (b : Bool)
  | num (n : Int)
  | str (s : String)
  | date (ms : Int)
  | obj (fields : List (String × JsValue))
  | arr (elems : List JsValue)
  | funcThrows (t : Thrown)
  | funcRetSync (durMs : Nat) (ret : JsValue)
  | funcRetPromise (delayMs : Nat) (ret : JsValue)

/-- JS truthiness of a value. -/
def jsTruthy : JsValue → Bool
  | .undefined => false
  | .nullv => false
  | .bool b => b
  | .num n => n != 0
  | .str s => s != ""
  | .date _ => true
  | .obj _ => true
  | .arr _ => true
  | .funcThrows _ => true
  | .funcRetSync _ _ => true
  | .funcRetPromise _ _ => true

/-- `typeof v === "function"`. -/
def isCallable : JsValue → Bool
  | .funcThrows _ => true
  | .funcRetSync _ _ => true
  | .funcRetPromise _ _ => true
  | _ => false

/-- Lookup in an insertion-ordered association list (JS `Map.get` /
scope-variable lookup). -/
def lookupAssoc {α : Type} : List (String × α) → String → Option α
  | [], _ => none
  | (k, v) :: rest, key => if k == key then some v else lookupAssoc rest key

/-- JS `Map.set` / object-property assignment: overwrite the existing entry
in place, else append (insertion order preserved). -/
def setAssoc {α : Type} : List (String × α) → String → α → List (String × α)
  | [], key, val => [(key, val)]
  | (k, v) :: rest, key, val =>
      if k == key then (k, val) :: rest else (k, v) :: setAssoc rest key val

/-- Property access `v[k]`, `undefined` when absent or not an object. -/
def getField : JsValue → String → JsValue
  | .obj fields, k => (lookupAssoc fields k).getD .undefined
  | _, _ => .undefined

/-! ## Sandboxed executor (lines 85-194 of plugin-system.ts) -/

/-- The denotation of evaluating a plugin source text inside the generated
wrapper function: either the top-level statements throw, or evaluation
completes leaving a scope of named bindings (among them, possibly,
`calculate` and `render`). -/
inductive EvalOutcome where
  | thrown (t : Thrown)
  | completed (scope : List (String × JsValue))

/-- The value bound to `name` in the wrapper scope (`undefined` when the
identifier was never declared, as observed by `typeof name`). -/
def scopeEntry (scope : List (String × JsValue)) (name : String) : JsValue :=
  (lookupAssoc scope name).getD .undefined

/-- Maximum execution time for a single plugin (milliseconds), line 14. -/
def PLUGIN_TIMEOUT_MS : Nat := 500

/-- The `{ result, error }` object the executors resolve with. -/
structure ExecResult where
  result : Option JsValue
  error : Option String

/-- Full observable behaviour of one executor call: `outcome` is `.ok` when
the returned promise resolves with an `ExecResult` and `.error ()` when the
executor's own promise rejects (an exception escaped the handler);
`timeMs` is when, relative to the call, the promise settles; `invoked`
records whether the plugin entry point was actually called. -/
structure ExecTrace where
  outcome : Except Unit ExecResult
  timeMs : Nat
  invoked : Bool

/-- The `catch (error: any)` clause (lines 133-136 / 190-193):
`return { result: null, error: error.message || 'Plugin execution failed' }`.
Reading `.message` on a nullish thrown value itself throws, and that
`TypeError` escapes the catch block, rejecting the executor's promise. -/
def catchClause : Thrown → Except Unit ExecResult
  | .nullish => .error ()
  | .errObj m => .ok ⟨none, some (if m == "" then "Plugin execution failed" else m)⟩
  | .other => .ok ⟨none, some "Plugin execution failed"⟩

/-- Common body of `executePluginCalculation` and `executePluginRender`: run
the wrapper (plugin top level, then the `typeof`-guard epilogue, then the
entry-point call) and race the result against the 500 ms timer.

Event-loop fidelity: the first arm of `Promise.race`, namely
`Promise.resolve(pluginFunction(...))`, is evaluated synchronously before
the timeout promise is even constructed, so a synchronous return after
`durMs` wins the race at time `durMs` no matter how large `durMs` is; only
a returned promise still pending when the timer fires loses the race.  A
promise settling exactly at the deadline wins, its timer having been
registered before the timeout's. -/
def runWrapper (entryName missingMsg : String) : EvalOutcome → ExecTrace
  | .thrown t => ⟨catchClause t, 0, false⟩
  | .completed scope =>
      match scopeEntry scope entryName with
      | .funcThrows t => ⟨catchClause t, 0, true⟩
      | .funcRetSync durMs v => ⟨.ok ⟨some v, none⟩, durMs, true⟩
      | .funcRetPromise delayMs v =>
          if delayMs ≤ PLUGIN_TIMEOUT_MS then ⟨.ok ⟨some v, none⟩, delayMs, true⟩
          else ⟨catchClause (.errObj "Plugin execution timeout"), PLUGIN_TIMEOUT_MS, true⟩
      | _ => ⟨catchClause (.errObj missingMsg), 0, false⟩

/-- `executePluginCalculation` (lines 85-137), applied to the denotation of
its `pluginCode` argument. -/
def executePluginCalculation (code : EvalOutcome) : ExecTrace :=
  runWrapper "calculate" "Plugin must export a calculate() function" code

/-- `executePluginRender` (lines 142-194). -/
def executePluginRender (code : EvalOutcome) : ExecTrace :=
  runWrapper "render" "Plugin must export a render() function" code

/-! ## Static validator (lines 199-236 of plugin-system.ts)

The ten denylist regexes all have the shape "literal word, then an optional
whitespace tail", so they are compiled to a `Pat`: a literal word (stored
lowercase; the regexes carry the `i` flag) plus a `PatTail`.  `\s` is the
JS whitespace class restricted to its ASCII members. -/

/-- Tail of a denylist pattern after its literal word. -/
inductive PatTail where
  /-- nothing more (e.g. `/XMLHttpRequest/`) -/
  | plain
  /-- `\s*\(` : optional whitespace, then an opening parenthesis -/
  | wsStarParen
  /-- `\s+` : at least one whitespace character -/
  | wsPlus
deriving DecidableEq

/-- A compiled denylist pattern. -/
structure Pat where
  word : String
  tail : PatTail
deriving DecidableEq

/-- ASCII members of the JS `\s` class. -/
def isJsWs (c : Char) : Bool :=
  c == ' ' || c == '\t' || c == '\n' || c == '\r' || c == '\x0b' || c == '\x0c'

/-- Consume `word` (already lowercase) at the head of `cs`, comparing
case-insensitively; return the rest on success. -/
def dropWord : List Char → List Char → Option (List Char)
  | [], cs => some cs
  | _ :: _, [] => none
  | w :: ws, c :: cs => if c.toLower == w then dropWord ws cs else none

/-- Skip a maximal run of whitespace. -/
def skipWs : List Char → List Char
  | [] => []
  | c :: cs => if isJsWs c then skipWs cs else c :: cs

/-- Match a pattern tail at the head of `cs`. -/
def tailMatches : PatTail → List Char → Bool
  | .plain, _ => true
  | .wsStarParen, cs =>
      match skipWs cs with
      | '(' :: _ => true
      | _ => false
  | .wsPlus, cs =>
      match cs with
      | c :: _ => isJsWs c
      | [] => false

/-- Match a pattern anchored at the head of `cs`. -/
def patMatchesAt (p : Pat) (cs : List Char) : Bool :=
  match dropWord p.word.data cs with
  | some rest => tailMatches p.tail rest
  | none => false

/-- Match a pattern anywhere in `cs` (regex `.test`). -/
def patMatchesIn (p : Pat) : List Char → Bool
  | [] => patMatchesAt p []
  | c :: cs => patMatchesAt p (c :: cs) || patMatchesIn p cs

/-- `pattern.test(code)` for one denylist regex.  Each call of
`validatePluginCode` rebuilds the regex literals, so the `g`-flag
`lastIndex` state never persists between tests. -/
def testPattern (p : Pat) (code : String) : Bool :=
  patMatchesIn p code.data

/-- The `dangerousPatterns` table (lines 203-214): compiled pattern and the
violation message pushed when it matches. -/
def dangerousPatterns : List (Pat × String) :=
  [ (⟨"eval", .wsStarParen⟩, "eval() is not allowed"),
    (⟨"function", .wsStarParen⟩, "Function constructor is not allowed"),
    (⟨"import", .wsPlus⟩, "import statements are not allowed"),
    (⟨"require", .wsStarParen⟩, "require() is not allowed"),
    (⟨"process.", .plain⟩, "process access is not allowed"),
    (⟨"global.", .plain⟩, "global access is not allowed"),
    (⟨"fetch", .wsStarParen⟩, "fetch() is not allowed"),
    (⟨"xmlhttprequest", .plain⟩, "XMLHttpRequest is not allowed"),
    (⟨"__dirname", .plain⟩, "__dirname is not allowed"),
    (⟨"__filename", .plain⟩, "__filename is not allowed") ]

/-- Case-sensitive prefix test on character lists. -/
def headEq : List Char → List Char → Bool
  | [], _ => true
  | _ :: _, [] => false
  | a :: as, b :: bs => a == b && headEq as bs

/-- Case-sensitive substring test on character lists (JS `String.includes`). -/
def containsSubList (needle : List Char) : List Char → Bool
  | [] => headEq needle []
  | c :: cs => headEq needle (c :: cs) || containsSubList needle cs

/-- `code.includes(needle)`. -/
def containsSubstring (needle code : String) : Bool :=
  containsSubList needle.data code.data

/-- The `{ valid, errors }` object `validatePluginCode` returns. -/
structure ValidationResult where
  valid : Bool
  errors : List String

/-- `validatePluginCode` (lines 199-236): push a violation per matching
denylist pattern, then the length check, then the required-entry-point
check; `valid` is `errors.length === 0`. -/
def validatePluginCode (code : String) : ValidationResult :=
  let patternErrors :=
    dangerousPatterns.filterMap fun q =>
      if testPattern q.1 code then some q.2 else none
  let lengthErrors :=
    if code.length > 50000 then ["Plugin code exceeds maximum length (50KB)"] else []
  let entryErrors :=
    if !containsSubstring "function calculate" code && !containsSubstring "function render" code
    then ["Plugin must define at least calculate() or render() function"] else []
  let errors := patternErrors ++ lengthErrors ++ entryErrors
  ⟨errors.isEmpty, errors⟩

/-! ## Orchestrator (lines 241-288 of plugin-system.ts) -/

/-- One entry of the user's plugin list. -/
structure PluginConfigM where
  id : String
  enabled : Bool
  settings : JsValue

/-- A stored plugin definition; `code` is the denotation of its source text
under the wrapper (the same source is evaluated by both hooks, so one
denotation serves both). -/
structure PluginM where
  code : EvalOutcome

/-- `error.message || ...` never yields an empty string, but the orchestrator
still tests truthiness: `if (res.error)` keeps the error only when it is a
non-empty string. -/
def errVal : Option String → Option String
  | some e => if e == "" then none else some e
  | none => none

/-- `else if (res.result)`: the result is recorded only when truthy. -/
def resVal : Option JsValue → Option JsValue
  | some v => if jsTruthy v then some v else none
  | none => none

/-- The per-hook recording step (lines 272-276 / 280-284):
`if (res.error) errors.set(id, res.error); else if (res.result)
results.set(id, res.result)`. -/
def recordOutcome (id : String) (res : ExecResult)
    (errMap : List (String × String)) (resMap : List (String × JsValue)) :
    List (String × String) × List (String × JsValue) :=
  match errVal res.error with
  | some e => (setAssoc errMap id e, resMap)
  | none =>
      match resVal res.result with
      | some v => (errMap, setAssoc resMap id v)
      | none => (errMap, resMap)

/-- The `for (const pluginConfig of plugins)` loop of `processPlugins`.  The
whole call is `Except Unit …` because an executor promise that rejects (see
`catchClause` on nullish throws) makes the awaited `processPlugins` promise
reject too, abandoning the batch. -/
def processGo (defs : List (String × PluginM)) :
    List PluginConfigM → List (String × JsValue) → List (String × JsValue) →
    List (String × String) →
    Except Unit (List (String × JsValue) × List (String × JsValue) × List (String × String))
  | [], calcResults, renderResults, errors => .ok (calcResults, renderResults, errors)
  | cfg :: rest, calcResults, renderResults, errors =>
      if cfg.enabled then
        match lookupAssoc defs cfg.id with
        | none =>
            processGo defs rest calcResults renderResults
              (setAssoc errors cfg.id "Plugin definition not found")
        | some pl =>
            match (executePluginCalculation pl.code).outcome with
            | .error u => .error u
            | .ok calcRes =>
                let stepC := recordOutcome cfg.id calcRes errors calcResults
                match (executePluginRender pl.code).outcome with
                | .error u => .error u
                | .ok rendRes =>
                    let stepR := recordOutcome cfg.id rendRes stepC.1 renderResults
                    processGo defs rest stepC.2 stepR.2 stepR.1
      else processGo defs rest calcResults renderResults errors

/-- `processPlugins` (lines 241-288): returns the three insertion-ordered
maps `{ calculationResults, renderResults, errors }`. -/
def processPlugins (plugins : List PluginConfigM) (defs : List (String × PluginM)) :
    Except Unit (List (String × JsValue) × List (String × JsValue) × List (String × String)) :=
  processGo defs plugins [] [] []

/-! ## Result merger (lines 293-311 of plugin-system.ts) -/

/-- `mergePluginResults`: start from `baseDate`, walk the calculation
results in insertion order, let a truthy `result.currentDate` overwrite the
date (last writer wins) and a truthy `result.data` be stored under the
plugin's id. -/
def mergePluginResults (baseDate : JsValue) (calcResults : List (String × JsValue)) :
    JsValue × List (String × JsValue) :=
  calcResults.foldl
    (fun acc entry =>
      let d := getField entry.2 "currentDate"
      let dat := getField entry.2 "data"
      ( if jsTruthy d then d else acc.1,
        if jsTruthy dat then setAssoc acc.2 entry.1 dat else acc.2 ))
    (baseDate, [])

/-! ## Context construction in the orchestrator loop (lines 264-268)

The reference structure models JS object identity: each `…Ref` field holds
the heap reference stored in that property.  The loop builds each plugin's
context as `{ ...baseContext, settings: pluginConfig.settings }` — a
shallow spread: the *references* held in `currentDate` and `utils` are
copied, while the object literal itself is a fresh allocation (modelled by
`topRef`, numbered by iteration). -/

/-- The `baseContext` argument of `processPlugins` (object references plus
primitive fields). -/
structure BaseCtx where
  currentDateRef : Nat
  utilsRef : Nat
  birthDate : String
  width : Nat
  height : Nat
  viewMode : String
deriving DecidableEq

/-- A per-plugin context as built by the loop. -/
structure CtxObj where
  topRef : Nat
  currentDateRef : Nat
  utilsRef : Nat
  birthDate : String
  width : Nat
  height : Nat
  viewMode : String
  settingsRef : Nat
deriving DecidableEq

/-- A plugin config as seen by the reference model (its `settings` property
is itself a reference). -/
structure CfgRef where
  id : String
  enabled : Bool
  settingsRef : Nat
deriving DecidableEq

/-- The shallow spread `{ ...baseContext, settings: pluginConfig.settings }`
performed for one plugin, `n` being the fresh identity of the new object
literal. -/
def spreadContext (base : BaseCtx) (n : Nat) (cfg : CfgRef) : CtxObj :=
  { topRef := n
    currentDateRef := base.currentDateRef
    utilsRef := base.utilsRef
    birthDate := base.birthDate
    width := base.width
    height := base.height
    viewMode := base.viewMode
    settingsRef := cfg.settingsRef }

/-- Contexts built for the enabled plugins of a batch, in processing order,
with fresh top-level identities numbered from `n`. -/
def batchContextsGo (base : BaseCtx) (n : Nat) : List CfgRef → List CtxObj
  | [] => []
  | cfg :: rest =>
      if cfg.enabled then spreadContext base n cfg :: batchContextsGo base (n + 1) rest
      else batchContextsGo base n rest

/-- The list of `ExecutionContext`s the `processPlugins` loop hands to the
plugins of a batch. -/
def batchContexts (base : BaseCtx) (cfgs : List CfgRef) : List CtxObj :=
  batchContextsGo base 0 cfgs

/-- The independence property claimed for a batch's contexts: no mutable
object reachable from one plugin's context is the same object reachable
from another's (here: the `currentDate` and `utils` references). -/
def contextsFullyIndependent (ctxs : List CtxObj) : Prop :=
  ctxs.Pairwise fun a b => a.currentDateRef ≠ b.currentDateRef ∧ a.utilsRef ≠ b.utilsRef

instance (ctxs : List CtxObj) : Decidable (contextsFullyIndependent ctxs) := by
  unfold contextsFullyIndependent
  exact List.instDecidablePairwise ctxs

/-! ## Helper lemmas -/

/-- When the entry-point binding is absent or not callable, the wrapper
throws the missing-entry `Error`, which the catch clause converts. -/
theorem runWrapper_missing (entryName missingMsg : String)
    (scope : List (String × JsValue))
    (h : isCallable (scopeEntry scope entryName) = false) :
    runWrapper entryName missingMsg (.completed scope) =
      ⟨catchClause (.errObj missingMsg), 0, false⟩ := by
  cases hv : scopeEntry scope entryName <;>
    simp only [runWrapper, hv] <;> simp_all [isCallable]

/-- `validatePluginCode` reports `valid = false` whenever any message was
pushed onto `errors`. -/
theorem validate_valid_false_of_mem {code m : String}
    (h : m ∈ (validatePluginCode code).errors) :
    (validatePluginCode code).valid = false := by
  have hv : (validatePluginCode code).valid = (validatePluginCode code).errors.isEmpty := rfl
  rw [hv]
  cases herr : (validatePluginCode code).errors with
  | nil => rw [herr] at h; cases h
  | cons a as => rfl

/-- Every context built by `batchContextsGo` copies the base references and
gets a top-level identity at least the running counter. -/
theorem batchContextsGo_fields (base : BaseCtx) :
    ∀ (cfgs : List CfgRef) (n : Nat), ∀ ctx ∈ batchContextsGo base n cfgs,
      ctx.currentDateRef = base.currentDateRef ∧ ctx.utilsRef = base.utilsRef ∧
      n ≤ ctx.topRef := by
  intro cfgs
  induction cfgs with
  | nil => intro n ctx h; simp [batchContextsGo] at h
  | cons c rest ih =>
    intro n ctx h
    by_cases hc : c.enabled = true
    · simp only [batchContextsGo, hc, if_true, List.mem_cons] at h
      rcases h with h | h
      · subst h; exact ⟨rfl, rfl, Nat.le_refl n⟩
      · obtain ⟨h1, h2, h3⟩ := ih (n + 1) ctx h
        exact ⟨h1, h2, Nat.le_trans (Nat.le_succ n) h3⟩
    · simp only [batchContextsGo, hc, if_false, Bool.false_eq_true] at h
      exact ih n ctx h

/-- The top-level context objects of a batch are pairwise distinct
allocations. -/
theorem batchContextsGo_fresh_tops (base : BaseCtx) :
    ∀ (cfgs : List CfgRef) (n : Nat),
      (batchContextsGo base n cfgs).Pairwise fun a b => a.topRef ≠ b.topRef := by
  intro cfgs
  induction cfgs with
  | nil => intro n; simp [batchContextsGo]
  | cons c rest ih =>
    intro n
    by_cases hc : c.enabled = true
    · simp only [batchContextsGo, hc, if_true, List.pairwise_cons]
      refine ⟨fun b hb => ?_, ih (n + 1)⟩
      have h := (batchContextsGo_fields base rest (n + 1) b hb).2.2
      simp only [spreadContext]
      omega
    · simp only [batchContextsGo, hc, if_false, Bool.false_eq_true]
      exact ih n

/-- The settings references of a batch's contexts are exactly the enabled
configs' own settings references, in order. -/
theorem batchContextsGo_settings (base : BaseCtx) :
    ∀ (cfgs : List CfgRef) (n : Nat),
      (batchContextsGo base n cfgs).map CtxObj.settingsRef =
        (cfgs.filter fun c => c.enabled).map CfgRef.settingsRef := by
  intro cfgs
  induction cfgs with
  | nil => intro n; simp [batchContextsGo]
  | cons c rest ih =>
    intro n
    by_cases hc : c.enabled = true <;>
      simp [batchContextsGo, hc, List.filter, spreadContext, ih]

/-! ## Claim C1 -/

/-- Claim C1 (failing input, code bug): a `calculate` that blocks
synchronously for 1000 ms — past the 500 ms deadline — is NOT preempted:
`executePluginCalculation` resolves with the plugin's own result at
t = 1000 ms, not with the Timeout failure at the deadline, because the
wrapped call is evaluated to completion before the timeout timer is even
registered.  Only an invocation that returns a still-pending promise
(second conjunct, settling at 1000 ms) loses the race and yields the
Timeout failure at t = 500 ms. -/
theorem calc_sync_overrun_not_preempted :
    executePluginCalculation (.completed [("calculate", .funcRetSync 1000 (.num 7))]) =
      ⟨.ok ⟨some (.num 7), none⟩, 1000, true⟩ ∧
    executePluginCalculation (.completed [("calculate", .funcRetPromise 1000 (.num 7))]) =
      ⟨.ok ⟨none, some "Plugin execution timeout"⟩, 500, true⟩ :=
  ⟨rfl, rfl⟩

/-! ## Claim C6 -/

/-- Claim C6 (failing input, code bug): when plugin code throws a nullish
value (`throw null`), the executor's `catch` clause reads
`error.message` on `null`, itself throwing a `TypeError`; the executor's
promise therefore rejects instead of resolving with a typed
`{ result, error }` outcome, and the rejection propagates through
`processPlugins`, abandoning the whole batch. -/
theorem nullish_throw_escapes_executor :
    (executePluginCalculation (.completed [("calculate", .funcThrows .nullish)])).outcome =
      .error () ∧
    (executePluginRender (.completed [("render", .funcThrows .nullish)])).outcome =
      .error () ∧
    processPlugins [⟨"p", true, .undefined⟩]
        [("p", ⟨.completed [("calculate", .funcThrows .nullish)]⟩)] =
      .error () :=
  ⟨rfl, rfl, rfl⟩

/-! ## Claim C7 -/

/-- Claim C7: for every evaluated plugin scope in which the required entry
point (`calculate` for `executePluginCalculation`, `render` for
`executePluginRender`) is absent or not callable, the executor fails with
the corresponding "Plugin must export a …() function" message, and the
entry point is never invoked (`invoked = false` in the trace). -/
theorem missing_entry_point_fails_without_invocation :
    ∀ scope : List (String × JsValue),
      (isCallable (scopeEntry scope "calculate") = false →
        executePluginCalculation (.completed scope) =
          ⟨.ok ⟨none, some "Plugin must export a calculate() function"⟩, 0, false⟩) ∧
      (isCallable (scopeEntry scope "render") = false →
        executePluginRender (.completed scope) =
          ⟨.ok ⟨none, some "Plugin must export a render() function"⟩, 0, false⟩) := by
  intro scope
  exact ⟨fun h => runWrapper_missing "calculate" _ scope h,
         fun h => runWrapper_missing "render" _ scope h⟩

/-- Witness for C7 at a concrete scope binding only the irrelevant name
`x`. -/
theorem missing_entry_point_fails_without_invocation_witness :
    isCallable (scopeEntry [("x", JsValue.num 1)] "calculate") = false ∧
    executePluginCalculation (.completed [("x", JsValue.num 1)]) =
      ⟨.ok ⟨none, some "Plugin must export a calculate() function"⟩, 0, false⟩ :=
  ⟨rfl, (missing_entry_point_fails_without_invocation [("x", JsValue.num 1)]).1 rfl⟩

/-! ## Claim C2 -/

/-- A concrete base context: `currentDate` lives at heap reference 0 and
`utils` at reference 1. -/
def c2Base : BaseCtx := ⟨0, 1, "1990-05-17", 1170, 2532, "year"⟩

/-- Two enabled plugins in one batch. -/
def c2Cfgs : List CfgRef := [⟨"moon-phase", true, 10⟩, ⟨"quotes", true, 11⟩]

/-- Claim C2 (counterexample): in a batch of two enabled plugins the
contexts built by the `processPlugins` loop are NOT fully independent: the
shallow spread `{ ...baseContext, settings: … }` copies the `currentDate`
and `utils` references unchanged, so both plugins receive the very same
mutable `Date` and `utils` objects. -/
theorem batch_contexts_not_independent :
    ¬ contextsFullyIndependent (batchContexts c2Base c2Cfgs) := by decide

/-- Claim C2 (amended): each plugin invocation in a `processPlugins` batch
receives a freshly allocated top-level context object (pairwise distinct
identities) carrying that plugin's own `settings` reference, but the
`currentDate` and `utils` fields of every context in the batch hold the
base context's references — those two objects are shared by all plugins of
the batch. -/
theorem batch_contexts_share_base_refs (base : BaseCtx) (cfgs : List CfgRef) :
    (∀ ctx ∈ batchContexts base cfgs,
      ctx.currentDateRef = base.currentDateRef ∧ ctx.utilsRef = base.utilsRef) ∧
    (batchContexts base cfgs).Pairwise (fun a b => a.topRef ≠ b.topRef) ∧
    (batchContexts base cfgs).map CtxObj.settingsRef =
      (cfgs.filter fun c => c.enabled).map CfgRef.settingsRef := by
  refine ⟨fun ctx h => ?_, batchContextsGo_fresh_tops base cfgs 0,
          batchContextsGo_settings base cfgs 0⟩
  have := batchContextsGo_fields base cfgs 0 ctx h
  exact ⟨this.1, this.2.1⟩

/-- Witness for the amended C2 at the concrete two-plugin batch. -/
theorem batch_contexts_share_base_refs_witness :
    spreadContext c2Base 0 ⟨"moon-phase", true, 10⟩ ∈ batchContexts c2Base c2Cfgs ∧
    (spreadContext c2Base 0 ⟨"moon-phase", true, 10⟩).currentDateRef =
      c2Base.currentDateRef :=
  ⟨by decide,
   ((batch_contexts_share_base_refs c2Base c2Cfgs).1 _ (by decide)).1⟩

/-! ## Claim C3 -/

/-- Follows the spec's words (§3, §4.4 step 6), for comparison with the
code: a CalculationResult-shaped value is an object whose optional
`currentDate` field, when present, is a date (its `data` field is an
arbitrary bag). -/
def specCalculationResultShaped : JsValue → Bool
  | .obj fields =>
      (match lookupAssoc fields "currentDate" with
       | some (.date _) => true
       | some _ => false
       | none => true)
  | _ => false

/-- A scope whose `calculate` returns the number 42 — not a
CalculationResult-shaped value. -/
def c3Scope : List (String × JsValue) :=
  [("calculate", .funcRetSync 3 (.num 42)), ("render", .funcRetSync 3 (.num 42))]

/-- Claim C3 (counterexample): a `calculate` returning the bare number 42 —
which is not CalculationResult-shaped — is reported by
`executePluginCalculation` as a SUCCESS carrying that very value
(`error = null`), not as an InvalidResult failure: the executor performs no
structural validation, it merely type-casts the returned value. -/
theorem invalid_result_reported_as_success :
    specCalculationResultShaped (.num 42) = false ∧
    executePluginCalculation (.completed [("calculate", .funcRetSync 0 (.num 42))]) =
      ⟨.ok ⟨some (.num 42), none⟩, 0, true⟩ :=
  ⟨rfl, rfl⟩

/-- Claim C3 (amended): a plugin invocation that completes without throwing
and without timing out has its returned value passed through as the
success result entirely unvalidated — whatever its shape — for both the
`calculate` and the `render` hook; no InvalidResult failure exists. -/
theorem executor_returns_value_unvalidated :
    ∀ (scope : List (String × JsValue)) (durMs : Nat) (v : JsValue),
      (scopeEntry scope "calculate" = .funcRetSync durMs v →
        executePluginCalculation (.completed scope) =
          ⟨.ok ⟨some v, none⟩, durMs, true⟩) ∧
      (scopeEntry scope "render" = .funcRetSync durMs v →
        executePluginRender (.completed scope) =
          ⟨.ok ⟨some v, none⟩, durMs, true⟩) := by
  intro scope durMs v
  constructor <;> intro h <;>
    simp only [executePluginCalculation, executePluginRender, runWrapper, h]

/-- Witness for the amended C3 at the scope returning the number 42. -/
theorem executor_returns_value_unvalidated_witness :
    scopeEntry c3Scope "calculate" = .funcRetSync 3 (.num 42) ∧
    scopeEntry c3Scope "render" = .funcRetSync 3 (.num 42) ∧
    executePluginCalculation (.completed c3Scope) =
      ⟨.ok ⟨some (.num 42), none⟩, 3, true⟩ ∧
    executePluginRender (.completed c3Scope) =
      ⟨.ok ⟨some (.num 42), none⟩, 3, true⟩ :=
  ⟨rfl, rfl,
   (executor_returns_value_unvalidated c3Scope 3 (.num 42)).1 rfl,
   (executor_returns_value_unvalidated c3Scope 3 (.num 42)).2 rfl⟩

/-! ## Claim C4 -/

/-- Claim C4: every source text matching one of the ten denylisted lexical
patterns is rejected: `validatePluginCode` returns `valid = false` and its
`errors` list contains the violation message naming that pattern. -/
theorem denylisted_pattern_rejected :
    ∀ pm ∈ dangerousPatterns, ∀ code : String,
      testPattern pm.1 code = true →
      (validatePluginCode code).valid = false ∧
      pm.2 ∈ (validatePluginCode code).errors := by
  intro pm hpm code ht
  have hmem : pm.2 ∈ dangerousPatterns.filterMap
      (fun q => if testPattern q.1 code then some q.2 else none) :=
    List.mem_filterMap.mpr ⟨pm, hpm, by simp [ht]⟩
  have hmem2 : pm.2 ∈ (validatePluginCode code).errors := by
    simp only [validatePluginCode]
    exact List.mem_append_left _ (List.mem_append_left _ hmem)
  exact ⟨validate_valid_false_of_mem hmem2, hmem2⟩

/-- Witness for C4: the source `"eval(1)"` trips the `eval(` pattern. -/
theorem denylisted_pattern_rejected_witness :
    (⟨⟨"eval", .wsStarParen⟩, "eval() is not allowed"⟩ : Pat × String) ∈ dangerousPatterns ∧
    testPattern ⟨"eval", .wsStarParen⟩ "eval(1)" = true ∧
    (validatePluginCode "eval(1)").valid = false ∧
    "eval() is not allowed" ∈ (validatePluginCode "eval(1)").errors := by
  have h := denylisted_pattern_rejected ⟨⟨"eval", .wsStarParen⟩, "eval() is not allowed"⟩
    (by decide) "eval(1)" (by decide)
  exact ⟨by decide, by decide, h.1, h.2⟩

/-! ## Claim C5 -/

/-- A batch of three enabled plugins A, B, C. -/
def c5Cfgs : List PluginConfigM :=
  [⟨"A", true, .undefined⟩, ⟨"B", true, .undefined⟩, ⟨"C", true, .undefined⟩]

/-- Definitions for the batch: A and C return calculation results carrying
a `currentDate` override and a data bag; B's `calculate` returns nothing
(`undefined`). -/
def c5Defs (dA a dC c : JsValue) : List (String × PluginM) :=
  [ ("A", ⟨.completed [("calculate",
      .funcRetSync 0 (.obj [("currentDate", dA), ("data", a)]))]⟩),
    ("B", ⟨.completed [("calculate", .funcRetSync 0 .undefined)]⟩),
    ("C", ⟨.completed [("calculate",
      .funcRetSync 0 (.obj [("currentDate", dC), ("data", c)]))]⟩) ]

/-- Claim C5: for a batch of three enabled plugins where A and C each
return a calculation result with different (truthy) `currentDate`
overrides and B returns none, the orchestrator's calculation map holds
exactly A's and C's results in processing order, and `mergePluginResults`
starting from `baseDate` yields C's date (last writer wins) while
preserving A's and C's data bags independently under their own ids. -/
theorem merge_last_writer_wins :
    ∀ base dA dC a c : JsValue,
      jsTruthy dA = true → jsTruthy dC = true → dA ≠ dC →
      jsTruthy a = true → jsTruthy c = true →
      processPlugins c5Cfgs (c5Defs dA a dC c) =
        .ok ([("A", .obj [("currentDate", dA), ("data", a)]),
              ("C", .obj [("currentDate", dC), ("data", c)])],
             [],
             [("A", "Plugin must export a render() function"),
              ("B", "Plugin must export a render() function"),
              ("C", "Plugin must export a render() function")]) ∧
      mergePluginResults base
          [("A", .obj [("currentDate", dA), ("data", a)]),
           ("C", .obj [("currentDate", dC), ("data", c)])] =
        (dC, [("A", a), ("C", c)]) := by
  intro base dA dC a c h1 h2 hne h3 h4
  refine ⟨rfl, ?_⟩
  simp [mergePluginResults, getField, lookupAssoc, setAssoc, h1, h2, h3, h4]

/-- Witness for C5 at concrete dates and data bags. -/
theorem merge_last_writer_wins_witness :
    jsTruthy (.date 1) = true ∧ jsTruthy (.date 2) = true ∧
    (JsValue.date 1) ≠ (JsValue.date 2) ∧
    jsTruthy (.str "a") = true ∧ jsTruthy (.str "c") = true ∧
    mergePluginResults (.date 0)
        [("A", .obj [("currentDate", .date 1), ("data", .str "a")]),
         ("C", .obj [("currentDate", .date 2), ("data", .str "c")])] =
      (.date 2, [("A", .str "a"), ("C", .str "c")]) :=
  ⟨rfl, rfl, by simp, rfl, rfl,
   (merge_last_writer_wins (.date 0) (.date 1) (.date 2) (.str "a") (.str "c")
      rfl rfl (by simp) rfl rfl).2⟩

/-! ## Claim C8 -/

/-- Claim C8: every source text containing neither the substring
`function calculate` nor `function render` — the code's lexical criterion
for declaring an entry point — is rejected with the missing-entry-point
message; it is never a silent pass. -/
theorem missing_entry_declarations_rejected :
    ∀ code : String,
      containsSubstring "function calculate" code = false →
      containsSubstring "function render" code = false →
      (validatePluginCode code).valid = false ∧
      "Plugin must define at least calculate() or render() function" ∈
        (validatePluginCode code).errors := by
  intro code h1 h2
  have hmem : "Plugin must define at least calculate() or render() function" ∈
      (validatePluginCode code).errors := by
    simp [validatePluginCode, h1, h2]
  exact ⟨validate_valid_false_of_mem hmem, hmem⟩

/-- Witness for C8: the source `"let x = 1"` declares no entry point. -/
theorem missing_entry_declarations_rejected_witness :
    containsSubstring "function calculate" "let x = 1" = false ∧
    containsSubstring "function render" "let x = 1" = false ∧
    (validatePluginCode "let x = 1").valid = false ∧
    "Plugin must define at least calculate() or render() function" ∈
      (validatePluginCode "let x = 1").errors := by
  have h := missing_entry_declarations_rejected "let x = 1" (by decide) (by decide)
  exact ⟨by decide, by decide, h.1, h.2⟩

/-! ## Claim C9 -/

/-- Claim C9: for an enabled plugin whose calculation hook AND render hook
both fail (each with a truthy error message), the orchestrator first
records the calculation error under the plugin's id and then overwrites it
with the render error under the same key — the returned errors map retains
only the render hook's message for that plugin. -/
theorem both_hooks_fail_render_error_kept :
    ∀ (cfg : PluginConfigM) (pl : PluginM) (e1 e2 : String),
      cfg.enabled = true →
      (executePluginCalculation pl.code).outcome = .ok ⟨none, some e1⟩ →
      e1 ≠ "" →
      (executePluginRender pl.code).outcome = .ok ⟨none, some e2⟩ →
      e2 ≠ "" →
      processPlugins [cfg] [(cfg.id, pl)] = .ok ([], [], [(cfg.id, e2)]) := by
  intro cfg pl e1 e2 hen hc he1 hr he2
  simp [processPlugins, processGo, hen, lookupAssoc, hc, hr, recordOutcome,
        errVal, resVal, setAssoc, he1, he2]

/-- Witness for C9: a plugin whose source defines neither hook fails both
hooks; only the render hook's message survives. -/
theorem both_hooks_fail_render_error_kept_witness :
    (⟨"p", true, .undefined⟩ : PluginConfigM).enabled = true ∧
    (executePluginCalculation (PluginM.mk (.completed [])).code).outcome =
      .ok ⟨none, some "Plugin must export a calculate() function"⟩ ∧
    "Plugin must export a calculate() function" ≠ "" ∧
    (executePluginRender (PluginM.mk (.completed [])).code).outcome =
      .ok ⟨none, some "Plugin must export a render() function"⟩ ∧
    "Plugin must export a render() function" ≠ "" ∧
    processPlugins [⟨"p", true, .undefined⟩] [("p", ⟨.completed []⟩)] =
      .ok ([], [], [("p", "Plugin must export a render() function")]) :=
  ⟨rfl, rfl, by decide, rfl, by decide,
   both_hooks_fail_render_error_kept ⟨"p", true, .undefined⟩ ⟨.completed []⟩
     "Plugin must export a calculate() function"
     "Plugin must export a render() function"
     rfl rfl (by decide) rfl (by decide)⟩

/-! ## Claim C10 -/

/-- Claim C10: the orchestrator invokes both hooks unconditionally for
every enabled plugin with a known definition, so a plugin whose evaluated
source binds only one of the two entry points always lands in the errors
map with the missing hook's "Plugin must export a …() function" message,
even though its defined hook succeeded and its (truthy) result was
recorded in the corresponding results map. -/
theorem single_hook_plugin_always_errored :
    ∀ (cfg : PluginConfigM) (scope : List (String × JsValue)) (durMs : Nat) (v : JsValue),
      cfg.enabled = true →
      jsTruthy v = true →
      (scopeEntry scope "calculate" = .funcRetSync durMs v →
        isCallable (scopeEntry scope "render") = false →
        processPlugins [cfg] [(cfg.id, ⟨.completed scope⟩)] =
          .ok ([(cfg.id, v)], [],
               [(cfg.id, "Plugin must export a render() function")])) ∧
      (scopeEntry scope "render" = .funcRetSync durMs v →
        isCallable (scopeEntry scope "calculate") = false →
        processPlugins [cfg] [(cfg.id, ⟨.completed scope⟩)] =
          .ok ([], [(cfg.id, v)],
               [(cfg.id, "Plugin must export a calculate() function")])) := by
  intro cfg scope durMs v hen hv
  constructor
  · intro hcalc hrender
    have hcalcExec : executePluginCalculation (.completed scope) =
        ⟨.ok ⟨some v, none⟩, durMs, true⟩ := by
      simp only [executePluginCalculation, runWrapper, hcalc]
    have hrendExec : executePluginRender (.completed scope) =
        ⟨.ok ⟨none, some "Plugin must export a render() function"⟩, 0, false⟩ :=
      runWrapper_missing "render" "Plugin must export a render() function" scope hrender
    simp [processPlugins, processGo, hen, lookupAssoc, hcalcExec, hrendExec,
          recordOutcome, errVal, resVal, setAssoc, hv]
  · intro hrender hcalc
    have hcalcExec : executePluginCalculation (.completed scope) =
        ⟨.ok ⟨none, some "Plugin must export a calculate() function"⟩, 0, false⟩ :=
      runWrapper_missing "calculate" "Plugin must export a calculate() function" scope hcalc
    have hrendExec : executePluginRender (.completed scope) =
        ⟨.ok ⟨some v, none⟩, durMs, true⟩ := by
      simp only [executePluginRender, runWrapper, hrender]
    simp [processPlugins, processGo, hen, lookupAssoc, hcalcExec, hrendExec,
          recordOutcome, errVal, resVal, setAssoc, hv]

/-- Witness for C10, once with a calculate-only scope and once with a
render-only scope. -/
theorem single_hook_plugin_always_errored_witness :
    (⟨"p", true, .undefined⟩ : PluginConfigM).enabled = true ∧
    jsTruthy (.num 5) = true ∧
    scopeEntry [("calculate", JsValue.funcRetSync 2 (.num 5))] "calculate" =
      .funcRetSync 2 (.num 5) ∧
    isCallable (scopeEntry [("calculate", JsValue.funcRetSync 2 (.num 5))] "render") = false ∧
    processPlugins [⟨"p", true, .undefined⟩]
        [("p", ⟨.completed [("calculate", JsValue.funcRetSync 2 (.num 5))]⟩)] =
      .ok ([("p", .num 5)], [], [("p", "Plugin must export a render() function")]) ∧
    scopeEntry [("render", JsValue.funcRetSync 2 (.num 5))] "render" =
      .funcRetSync 2 (.num 5) ∧
    isCallable (scopeEntry [("render", JsValue.funcRetSync 2 (.num 5))] "calculate") = false ∧
    processPlugins [⟨"p", true, .undefined⟩]
        [("p", ⟨.completed [("render", JsValue.funcRetSync 2 (.num 5))]⟩)] =
      .ok ([], [("p", .num 5)], [("p", "Plugin must export a calculate() function")]) :=
  ⟨rfl, rfl, rfl, rfl,
   (single_hook_plugin_always_errored ⟨"p", true, .undefined⟩
      [("calculate", JsValue.funcRetSync 2 (.num 5))] 2 (.num 5) rfl rfl).1 rfl rfl,
   rfl, rfl,
   (single_hook_plugin_always_errored ⟨"p", true, .undefined⟩
      [("render", JsValue.funcRetSync 2 (.num 5))] 2 (.num 5) rfl rfl).2 rfl rfl⟩

end PluginSystem
